import Mathlib

/-!
Shallow embedding of `src/app.py` (housing resale price estimator form).

Modelling conventions:
* Python `float` values are modelled by `PyFloat`: finite values carried
  exactly as rationals, plus the special values `inf`, `-inf` and `nan`.
  IEEE-754 rounding of finite doubles is not modelled (no validated value in
  this program depends on it); overflow of decimal literals to infinity is
  modelled with the cutoff `2^1024` (the exact rounding boundary just below
  it is not modelled, and no statement below touches that region).
* Python exceptions relevant to this fragment are `PyExc`; a function that
  can raise returns `Except PyExc _`.  `parse_int`/`parse_float` catch only
  `ValueError`, as in the source.
* `str.strip` is modelled by `pyStrip` (ASCII whitespace); Python's `float`
  constructor on strings is modelled by `pyFloatOfString` for ASCII input
  (sign, decimal literal with optional fraction/exponent/underscores,
  `inf`/`infinity`/`nan`, case-insensitive).
-/

set_option maxRecDepth 4000

deriving instance DecidableEq for Except

/-- Python exceptions that the modelled fragment can raise. -/
inductive PyExc where
  | valueError
  | overflowError
  | typeError
deriving DecidableEq

/-- Python float values: finite doubles carried exactly as rationals, plus
`inf`, `-inf` and `nan`.  Signed zero is not distinguished. -/
inductive PyFloat where
  | finite (q : ℚ)
  | inf
  | negInf
  | nan
deriving DecidableEq

/-- Python `<` on floats: any comparison with `nan` is false. -/
def pyLt : PyFloat → PyFloat → Bool
  | .nan, _ => false
  | _, .nan => false
  | .negInf, .negInf => false
  | .negInf, _ => true
  | _, .negInf => false
  | .inf, _ => false
  | _, .inf => true
  | .finite a, .finite b => decide (a < b)

/-- Python `<=` on floats: any comparison with `nan` is false. -/
def pyLe : PyFloat → PyFloat → Bool
  | .nan, _ => false
  | _, .nan => false
  | _, .negInf => false
  | .negInf, _ => true
  | .inf, .inf => true
  | _, .inf => true
  | .inf, _ => false
  | .finite a, .finite b => decide (a ≤ b)

/-- Rational division computed directly on numerators and denominators via
`mkRat` (the field operations on `ℚ` are irreducible and so would block
evaluation); `ratDiv_eq` below proves it equal to `a / b`. -/
def ratDiv (a b : ℚ) : ℚ :=
  if (a.den : Int) * b.num < 0 then
    mkRat (-(a.num * (b.den : Int))) ((a.den : Int) * b.num).natAbs
  else
    mkRat (a.num * (b.den : Int)) ((a.den : Int) * b.num).natAbs

/-- Float division with IEEE special-value behaviour (numpy semantics for the
division on app.py line 199); finite/finite division is exact rational
division. -/
def pyDiv : PyFloat → PyFloat → PyFloat
  | .nan, _ => .nan
  | _, .nan => .nan
  | .inf, .inf => .nan
  | .inf, .negInf => .nan
  | .negInf, .inf => .nan
  | .negInf, .negInf => .nan
  | .inf, .finite b => if b < 0 then .negInf else .inf
  | .negInf, .finite b => if b < 0 then .inf else .negInf
  | .finite _, .inf => .finite 0
  | .finite _, .negInf => .finite 0
  | .finite a, .finite b =>
      if b = 0 then (if a = 0 then .nan else if a < 0 then .negInf else .inf)
      else .finite (ratDiv a b)

/-- Display form of a float inside an f-string; only integral finite values
occur in the program's messages (`1.0`, `0.0`), and those are rendered the
way Python renders them. -/
def pyFloatRepr : PyFloat → String
  | .finite q => if q.den = 1 then toString q.num ++ ".0" else toString q.num ++ "/" ++ toString q.den
  | .inf => "inf"
  | .negInf => "-inf"
  | .nan => "nan"

/-- ASCII whitespace as stripped by Python `str.strip`. -/
def isPySpace (c : Char) : Bool :=
  c = ' ' || c = '\t' || c = '\n' || c = '\r' || c = '\x0b' || c = '\x0c'

/-- Python `str.strip()` (ASCII whitespace). -/
def pyStrip (s : String) : String :=
  String.mk (((s.toList.dropWhile isPySpace).reverse.dropWhile isPySpace).reverse)

/-- Scan a run of decimal digits, allowing a single underscore between two
digits (Python numeric literal rule); returns the accumulated value, the
number of digits consumed, and the remaining characters. -/
def digitsAux : Nat → Nat → List Char → Nat × Nat × List Char
  | acc, n, [] => (acc, n, [])
  | acc, n, c :: cs =>
    if c.isDigit then digitsAux (10 * acc + (c.toNat - 48)) (n + 1) cs
    else if c = '_' then
      match cs with
      | d :: cs2 =>
        if d.isDigit then digitsAux (10 * acc + (d.toNat - 48)) (n + 1) cs2
        else (acc, n, c :: cs)
      | [] => (acc, n, c :: cs)
    else (acc, n, c :: cs)

/-- Optional leading sign; returns whether the value is negated. -/
def readSign : List Char → Bool × List Char
  | '-' :: cs => (true, cs)
  | '+' :: cs => (false, cs)
  | cs => (false, cs)

/-- Exponent part of a float literal, applied to an already-scanned mantissa
`mantNum / 10^nf`. -/
def parseExp (mantNum : Nat) (nf : Nat) (rs : List Char) : Option ℚ :=
  let (pos, rs2) :=
    match rs with
    | '+' :: t => (true, t)
    | '-' :: t => (false, t)
    | _ => (true, rs)
  let (ev, ne, rs3) := digitsAux 0 0 rs2
  if ne = 0 ∨ rs3 ≠ [] then none
  else if pos then some (mkRat (mantNum * 10 ^ ev) (10 ^ nf))
  else some (mkRat mantNum (10 ^ nf * 10 ^ ev))

/-- Unsigned decimal float literal: `digits [. digits] [(e|E) [sign] digits]`,
with at least one mantissa digit. -/
def parseDecimal (cs : List Char) : Option ℚ :=
  let (ip, ni, r1) := digitsAux 0 0 cs
  let (fp, nf, r2) :=
    match r1 with
    | '.' :: rs => digitsAux 0 0 rs
    | _ => (0, 0, r1)
  if ni + nf = 0 then none
  else
    match r2 with
    | [] => some (mkRat (ip * 10 ^ nf + fp) (10 ^ nf))
    | 'e' :: rs => parseExp (ip * 10 ^ nf + fp) nf rs
    | 'E' :: rs => parseExp (ip * 10 ^ nf + fp) nf rs
    | _ => none

/-- Smallest magnitude at which a decimal literal overflows to infinity,
namely 2^1024 written out (kept as a numeral so that evaluation is cheap). -/
def doubleMax : ℚ := mkRat 179769313486231590772930519078902473361797697894230657273430081157732675805500963132708477322407536021120113879871393357658789768814416622492847430639474124377767893424865485276302219601246094119453082952085005768838150682342462881473913110540827237163350510684586298239947245938479716304835356329624224137216 1

/-- Python's builtin `float(str)` (ASCII input): strip whitespace, optional
sign, then either `inf`/`infinity`/`nan` (case-insensitive) or a decimal
literal; `none` models a raised `ValueError`. -/
def pyFloatOfString (s : String) : Option PyFloat :=
  let cs := (pyStrip s).toList
  let (neg, rest) := readSign cs
  let low := rest.map Char.toLower
  if low = "inf".toList ∨ low = "infinity".toList then
    some (if neg then .negInf else .inf)
  else if low = "nan".toList then some .nan
  else
    match parseDecimal rest with
    | none => none
    | some q =>
      let v : ℚ := if neg then -q else q
      if doubleMax ≤ v then some .inf
      else if v ≤ -doubleMax then some .negInf
      else some (.finite v)

/-- Truncation toward zero, the behaviour of Python `int()` on a finite
float. -/
def ratTrunc (q : ℚ) : Int :=
  if q.num < 0 then -((q.num.natAbs / q.den : Nat) : Int)
  else ((q.num.natAbs / q.den : Nat) : Int)

/-- Python `int()` applied to a float: truncates finite values, raises
`OverflowError` on infinities and `ValueError` on `nan`. -/
def pyIntOfFloat : PyFloat → Except PyExc Int
  | .finite q => .ok (ratTrunc q)
  | .inf => .error .overflowError
  | .negInf => .error .overflowError
  | .nan => .error .valueError

/-- app.py lines 90-99: `parse_int`.  The `try` block runs `int(float(raw))`
and catches only `ValueError`; an `OverflowError` from `int()` propagates
(modelled as `Except.error`).  `raw` is a string from `st.text_input`, so the
`raw is None` disjunct of line 91 is subsumed by the empty-after-strip test. -/
def parse_int (label raw : String) (min_v max_v : Int) :
    Except PyExc (Option Int × Option String) :=
  if pyStrip raw = "" then .ok (none, some (label ++ " cannot be empty."))
  else
    match pyFloatOfString raw with
    | none => .ok (none, some (label ++ " must be a whole number."))
    | some f =>
      match pyIntOfFloat f with
      | .error .valueError => .ok (none, some (label ++ " must be a whole number."))
      | .error e => .error e
      | .ok v =>
        if v < min_v ∨ max_v < v then
          .ok (none, some (label ++ " must be between " ++ toString min_v ++
            " and " ++ toString max_v ++ "."))
        else .ok (some v, none)

/-- app.py lines 101-112: `parse_float`.  Never raises: `float(raw)` only
raises `ValueError`, which is caught. -/
def parse_float (label raw : String) (min_v : PyFloat) (max_v : Option PyFloat) :
    Option PyFloat × Option String :=
  if pyStrip raw = "" then (none, some (label ++ " cannot be empty."))
  else
    match pyFloatOfString raw with
    | none => (none, some (label ++ " must be a number."))
    | some v =>
      if pyLt v min_v then
        (none, some (label ++ " must be at least " ++ pyFloatRepr min_v ++ "."))
      else
        match max_v with
        | some m =>
          if pyLt m v then
            (none, some (label ++ " must be at most " ++ pyFloatRepr m ++ "."))
          else (some v, none)
        | none => (some v, none)

/-- app.py line 120: `bedroom_options = list(range(1, 21))`, the selectbox
options 1..20. -/
def bedroom_options : List Int := (List.range 20).map (fun i => (i : Int) + 1)

/-- One form submission as handed to the predict handler: the selectbox value
(`None` when unselected, otherwise one of `bedroom_options`) and the five raw
text fields. -/
structure RawInput where
  bedroom_count : Option Int
  area_raw : String
  floor_raw : String
  center_raw : String
  metro_raw : String
  age_raw : String
deriving DecidableEq

/-- The six typed values present when validation succeeded, in the order of
the dict literal on app.py lines 190-197. -/
structure ValidatedProperty where
  bedroom_count : Int
  net_sqm : PyFloat
  center_distance : PyFloat
  metro_distance : PyFloat
  floor : Int
  age : Int
deriving DecidableEq

/-- app.py lines 167-168: the bedroom dropdown contributes its error when
unselected. -/
def bedErr (r : RawInput) : List String :=
  match r.bedroom_count with
  | none => ["Bedroom Count cannot be empty."]
  | some _ => []

/-- app.py line 170. -/
def areaParse (r : RawInput) : Option PyFloat × Option String :=
  parse_float "Net square meters" r.area_raw (.finite 1) none

/-- app.py line 173. -/
def floorParse (r : RawInput) : Except PyExc (Option Int × Option String) :=
  parse_int "Floor Level" r.floor_raw 1 50

/-- app.py line 176. -/
def centerParse (r : RawInput) : Option PyFloat × Option String :=
  parse_float "Distance to City Center (m)" r.center_raw (.finite 0) none

/-- app.py line 179. -/
def metroParse (r : RawInput) : Option PyFloat × Option String :=
  parse_float "Distance to Metro (m)" r.metro_raw (.finite 0) none

/-- app.py line 182. -/
def ageParse (r : RawInput) : Except PyExc (Option Int × Option String) :=
  parse_int "Property Age (years)" r.age_raw 0 1000

/-- The `errors` list of app.py lines 164-183, appended in source order;
`pf`/`pg` are the already-computed results of the two `parse_int` calls. -/
def collectErrors (r : RawInput) (pf pg : Option Int × Option String) : List String :=
  bedErr r ++ (areaParse r).2.toList ++ pf.2.toList ++ (centerParse r).2.toList ++
    (metroParse r).2.toList ++ pg.2.toList

/-- Outcome of the validation part of the handler. -/
inductive ValidationOutcome where
  | failure (errors : List String)
  | success (p : ValidatedProperty)
deriving DecidableEq

/-- app.py lines 185-197: if any error was collected, show the errors and
stop; otherwise build the typed record.  The conversions `int(bedroom_count)`,
`float(area)`, `float(center_distance)`, `float(metro_distance)`,
`int(floor)`, `int(age)` run in the order of the dict literal; the `none`
arms model the `TypeError` Python would raise when such a conversion gets
`None` (provably unreachable, since a missing value always comes with an
error message). -/
def finishValidation (r : RawInput) (pf pg : Option Int × Option String) :
    Except PyExc ValidationOutcome :=
  let errors := collectErrors r pf pg
  if errors = [] then
    match r.bedroom_count with
    | none => .error .typeError
    | some b =>
      match (areaParse r).1 with
      | none => .error .typeError
      | some a =>
        match (centerParse r).1 with
        | none => .error .typeError
        | some c =>
          match (metroParse r).1 with
          | none => .error .typeError
          | some m =>
            match pf.1 with
            | none => .error .typeError
            | some fl =>
              match pg.1 with
              | none => .error .typeError
              | some g => .ok (.success ⟨b, a, c, m, fl, g⟩)
  else .ok (.failure errors)

/-- app.py lines 163-197: the validation part of the predict handler.  The
two `parse_int` calls are the only raising steps; they run in source order
(floor before age) and an uncaught exception aborts the handler. -/
def validateSubmission (r : RawInput) : Except PyExc ValidationOutcome :=
  match floorParse r with
  | .error e => .error e
  | .ok pf =>
    match ageParse r with
    | .error e => .error e
    | .ok pg => finishValidation r pf pg

/-- app.py line 199: the derived feature
`new_property["sqm_per_bedroom"] = net_sqm / bedroom_count`. -/
def sqm_per_bedroom (p : ValidatedProperty) : PyFloat :=
  pyDiv p.net_sqm (.finite (p.bedroom_count : ℚ))

/-- The single-row dataframe of app.py lines 190-199 as an association list
from column name to value (integer columns embedded as floats). -/
def recordAssoc (p : ValidatedProperty) : List (String × PyFloat) :=
  [("bedroom_count", .finite (p.bedroom_count : ℚ)),
   ("net_sqm", p.net_sqm),
   ("center_distance", p.center_distance),
   ("metro_distance", p.metro_distance),
   ("floor", .finite (p.floor : ℚ)),
   ("age", .finite (p.age : ℚ)),
   ("sqm_per_bedroom", sqm_per_bedroom p)]

/-- The column names the assembler can actually produce. -/
def assembledFieldNames : List String :=
  ["bedroom_count", "net_sqm", "center_distance", "metro_distance",
   "floor", "age", "sqm_per_bedroom"]

/-- app.py line 202: `new_property.reindex(columns=features)`.  pandas keeps
exactly the requested columns, in order, and fills any requested column that
is absent from the frame with NaN (it does not raise). -/
def reindexRecord (p : ValidatedProperty) (features : List String) : List PyFloat :=
  features.map (fun c => ((recordAssoc p).lookup c).getD .nan)

/-- What the handler surfaces for one submission. -/
inductive HandlerResult where
  | errorsShown (msgs : List String)
  | predicted (record : List PyFloat)
deriving DecidableEq

/-- app.py lines 163-204: the whole predict handler.  On success the model is
invoked with the reindexed record (`model.predict(new_property)`); the model
itself is opaque, so the invocation is represented by the record handed to
it. -/
def submitHandler (features : List String) (r : RawInput) :
    Except PyExc HandlerResult :=
  match validateSubmission r with
  | .error e => .error e
  | .ok (.failure es) => .ok (.errorsShown es)
  | .ok (.success p) => .ok (.predicted (reindexRecord p features))

/-- Observable events of one script run. -/
inductive AppEvent where
  | modelLoad
  | validationErrors (msgs : List String)
  | prediction (record : List PyFloat)
deriving DecidableEq

/-- Modelled from the spec: Streamlit re-executes the whole of app.py once
per user interaction (spec design note: "the original per-request reload
pattern (loading the model fresh on each run)"); the rerun loop itself is
not part of src/.  Each run first executes the top-level `joblib.load`
(app.py line 72) and then, when the predict button was pressed, the
submission handler. -/
def scriptRun (features : List String) (submission : Option RawInput) :
    Except PyExc (List AppEvent) :=
  match submission with
  | none => .ok [.modelLoad]
  | some r =>
    match submitHandler features r with
    | .error e => .error e
    | .ok (.errorsShown es) => .ok [.modelLoad, .validationErrors es]
    | .ok (.predicted record) => .ok [.modelLoad, .prediction record]

/-- Modelled from the spec: a session is a sequence of interactions, each of
which reruns the script; events accumulate in order. -/
def sessionRun (features : List String) (subs : List (Option RawInput)) :
    Except PyExc (List AppEvent) :=
  match subs with
  | [] => .ok []
  | s :: rest =>
    match scriptRun features s with
    | .error e => .error e
    | .ok evs =>
      match sessionRun features rest with
      | .error e => .error e
      | .ok evs2 => .ok (evs ++ evs2)

/-- Number of model-artifact loads in a trace. -/
def countLoads (evs : List AppEvent) : Nat :=
  evs.countP fun e => match e with | .modelLoad => true | _ => false

/-- The spec's happy-path example submission: 3 bedrooms, 90 sqm, floor 5,
1200 m to center, 250 m to metro, 10 years old. -/
def demoInput : RawInput := ⟨some 3, "90", "5", "1200", "250", "10"⟩

/-- The same submission with an infinity string in the floor field. -/
def infInput : RawInput := ⟨some 3, "90", "inf", "1200", "250", "10"⟩

/-- A submission with several invalid fields at once: bedroom unselected,
area empty, floor non-numeric, the rest valid. -/
def multiBadInput : RawInput := ⟨none, "", "abc", "1200", "250", "10"⟩

/-! Helper lemmas. -/

lemma ratDiv_eq (a b : ℚ) : ratDiv a b = a / b := by
  unfold ratDiv
  by_cases hb : b = 0
  · subst hb
    simp
  · have hbn : b.num ≠ 0 := Rat.num_ne_zero.mpr hb
    have hadZ : ((a.den : Int)) ≠ 0 := by exact_mod_cast a.den_nz
    have hmne : ((a.den : Int) * b.num) ≠ 0 := mul_ne_zero hadZ hbn
    have hcore : ((a.num : ℚ) * (((b.den : Int)) : ℚ)) / ((((a.den : Int)) : ℚ) * (b.num : ℚ)) = a / b := by
      have had : ((a.den : ℚ)) ≠ 0 := by exact_mod_cast a.den_nz
      have hbd : ((b.den : ℚ)) ≠ 0 := by exact_mod_cast b.den_nz
      have hmq : ((((a.den : Int)) : ℚ) * (b.num : ℚ)) ≠ 0 := by exact_mod_cast hmne
      have ha2 : ((a.num : ℚ)) = a * a.den := (div_eq_iff had).mp (Rat.num_div_den a)
      have hb2 : ((b.num : ℚ)) = b * b.den := (div_eq_iff hbd).mp (Rat.num_div_den b)
      rw [div_eq_div_iff hmq hb, ha2, hb2]
      push_cast
      ring
    rcases lt_or_ge ((a.den : Int) * b.num) 0 with hm | hm
    · rw [if_pos hm, Rat.mkRat_eq_divInt, Rat.divInt_eq_div,
        Int.ofNat_natAbs_of_nonpos (le_of_lt hm)]
      push_cast
      rw [neg_div_neg_eq]
      exact hcore
    · rw [if_neg (not_lt.mpr hm), Rat.mkRat_eq_divInt, Rat.divInt_eq_div,
        Int.natAbs_of_nonneg hm]
      push_cast
      exact hcore

lemma bedroom_options_eq :
    bedroom_options =
      [1, 2, 3, 4, 5, 6, 7, 8, 9, 10, 11, 12, 13, 14, 15, 16, 17, 18, 19, 20] := by
  decide

lemma bedroom_options_iff (b : Int) : b ∈ bedroom_options ↔ 1 ≤ b ∧ b ≤ 20 := by
  rw [bedroom_options_eq]
  simp only [List.mem_cons, List.not_mem_nil, or_false]
  omega

lemma validateSubmission_eq (r : RawInput) (pf pg : Option Int × Option String)
    (hf : floorParse r = .ok pf) (hg : ageParse r = .ok pg) :
    validateSubmission r = finishValidation r pf pg := by
  unfold validateSubmission
  rw [hf, hg]

lemma finish_failure (r : RawInput) (pf pg : Option Int × Option String) (es : List String)
    (h : finishValidation r pf pg = .ok (.failure es)) :
    es = collectErrors r pf pg := by
  simp only [finishValidation] at h
  by_cases hc : collectErrors r pf pg = []
  · rw [if_pos hc] at h
    rcases hb : r.bedroom_count with _ | b <;> rw [hb] at h
    · simp at h
    rcases ha : (areaParse r).1 with _ | a <;> rw [ha] at h
    · simp at h
    rcases hcen : (centerParse r).1 with _ | c <;> rw [hcen] at h
    · simp at h
    rcases hmet : (metroParse r).1 with _ | m <;> rw [hmet] at h
    · simp at h
    rcases hfl : pf.1 with _ | fl <;> rw [hfl] at h
    · simp at h
    rcases hg2 : pg.1 with _ | g <;> rw [hg2] at h
    · simp at h
    simp at h
  · rw [if_neg hc] at h
    simp only [Except.ok.injEq, ValidationOutcome.failure.injEq] at h
    exact h.symm

lemma finish_success_bedroom (r : RawInput) (pf pg : Option Int × Option String)
    (p : ValidatedProperty) (h : finishValidation r pf pg = .ok (.success p)) :
    r.bedroom_count = some p.bedroom_count := by
  simp only [finishValidation] at h
  by_cases hc : collectErrors r pf pg = []
  · rw [if_pos hc] at h
    rcases hb : r.bedroom_count with _ | b <;> rw [hb] at h
    · simp at h
    rcases ha : (areaParse r).1 with _ | a <;> rw [ha] at h
    · simp at h
    rcases hcen : (centerParse r).1 with _ | c <;> rw [hcen] at h
    · simp at h
    rcases hmet : (metroParse r).1 with _ | m <;> rw [hmet] at h
    · simp at h
    rcases hfl : pf.1 with _ | fl <;> rw [hfl] at h
    · simp at h
    rcases hg2 : pg.1 with _ | g <;> rw [hg2] at h
    · simp at h
    have h2 : (⟨b, a, c, m, fl, g⟩ : ValidatedProperty) = p := by simpa using h
    subst h2
    rfl
  · rw [if_neg hc] at h
    simp at h

lemma parse_int_finite (label raw : String) (mn mx : Int) (q : ℚ)
    (hne : pyStrip raw ≠ "") (hq : pyFloatOfString raw = some (.finite q)) :
    parse_int label raw mn mx =
      if ratTrunc q < mn ∨ mx < ratTrunc q then
        .ok (none, some (label ++ " must be between " ++ toString mn ++
          " and " ++ toString mx ++ "."))
      else .ok (some (ratTrunc q), none) := by
  simp [parse_int, hne, hq, pyIntOfFloat]

lemma parse_float_finite (label raw : String) (mn : ℚ) (q : ℚ)
    (hne : pyStrip raw ≠ "") (hq : pyFloatOfString raw = some (.finite q)) :
    parse_float label raw (.finite mn) none =
      if q < mn then
        (none, some (label ++ " must be at least " ++ pyFloatRepr (.finite mn) ++ "."))
      else (some (.finite q), none) := by
  simp [parse_float, hne, hq, pyLt]

lemma parse_int_range_iff (label raw : String) (mn mx : Int) (q : ℚ)
    (hne : pyStrip raw ≠ "") (hq : pyFloatOfString raw = some (.finite q)) :
    parse_int label raw mn mx = .ok (some (ratTrunc q), none) ↔
      mn ≤ ratTrunc q ∧ ratTrunc q ≤ mx := by
  rw [parse_int_finite label raw mn mx q hne hq]
  by_cases hr : ratTrunc q < mn ∨ mx < ratTrunc q
  · rw [if_pos hr]
    simp only [Except.ok.injEq, Prod.mk.injEq]
    constructor
    · rintro ⟨h1, -⟩
      exact absurd h1 (by simp)
    · intro h1
      omega
  · rw [if_neg hr]
    push_neg at hr
    simp [hr.1, hr.2]

lemma parse_float_range_iff (label raw : String) (mn : ℚ) (q : ℚ)
    (hne : pyStrip raw ≠ "") (hq : pyFloatOfString raw = some (.finite q)) :
    parse_float label raw (.finite mn) none = (some (.finite q), none) ↔ mn ≤ q := by
  rw [parse_float_finite label raw mn q hne hq]
  by_cases hr : q < mn
  · rw [if_pos hr]
    simp only [Prod.mk.injEq]
    constructor
    · rintro ⟨h1, -⟩
      exact absurd h1 (by simp)
    · intro h1
      exact absurd hr (by simpa using h1)
  · rw [if_neg hr]
    simp [not_lt.mp hr]

/-! Claim theorems. -/

/-- C1: the validator contract "either a ValidatedProperty or a non-empty
error list, never both and never neither" is broken by the code.  On the
submission `infInput` (floor text "inf", all other fields valid) the
handler aborts with an uncaught OverflowError from `int(float("inf"))`
(app.py line 94), so neither a typed record nor an error list is produced,
and neither the error display nor the predictor is reached. -/
theorem validator_neither_value_nor_errors_on_inf :
    validateSubmission infInput = .error .overflowError ∧
    submitHandler assembledFieldNames infInput = .error .overflowError :=
  ⟨by decide, by decide⟩

/-- C2 (counterexample): contrary to the claim, the non-integer numeric
string "12.7" in the floor field is not rejected with the
"must be a whole number" message; `int(float("12.7"))` silently truncates
and the value 12 is accepted. -/
theorem floor_accepts_12_7 :
    parse_int "Floor Level" "12.7" 1 50 = .ok (some 12, none) ∧
    parse_int "Floor Level" "12.7" 1 50 ≠
      .ok (none, some "Floor Level must be a whole number.") :=
  ⟨by decide, by decide⟩

/-- C2 (amended): for every input string that parses as a finite float, the
floor/age parser accepts it, truncating toward zero (so "12.7" yields 12 and
"12.0" yields 12) subject only to the range check; only strings that do not
parse as a number at all are rejected with the "must be a whole number"
message (that branch is the `pyFloatOfString raw = none` case of
`parse_int`). -/
theorem parse_int_truncates (label raw : String) (min_v max_v : Int) (q : ℚ)
    (hne : pyStrip raw ≠ "") (hq : pyFloatOfString raw = some (.finite q)) :
    parse_int label raw min_v max_v =
      if ratTrunc q < min_v ∨ max_v < ratTrunc q then
        .ok (none, some (label ++ " must be between " ++ toString min_v ++
          " and " ++ toString max_v ++ "."))
      else .ok (some (ratTrunc q), none) :=
  parse_int_finite label raw min_v max_v q hne hq

/-- C2 (witness): the amended theorem evaluated at "12.0" and "12.7". -/
theorem parse_int_truncates_witness :
    parse_int "Floor Level" "12.0" 1 50 = .ok (some 12, none) ∧
    parse_int "Property Age (years)" "12.7" 0 1000 = .ok (some 12, none) := by
  constructor
  · have h := parse_int_truncates "Floor Level" "12.0" 1 50 12 (by decide) (by decide)
    rw [h]
    decide
  · have h := parse_int_truncates "Property Age (years)" "12.7" 0 1000 (mkRat 127 10)
      (by decide) (by decide)
    rw [h]
    decide

/-- C3 (counterexample): with a feature manifest naming a field the
assembler cannot produce ("mystery_feature"), the valid demo submission is
not stopped by any configuration error: `reindex` fills the unknown column
with NaN and the model is invoked with the NaN-carrying record. -/
theorem unknown_manifest_field_still_predicts :
    submitHandler ["sqm_per_bedroom", "mystery_feature"] demoInput =
      .ok (.predicted [PyFloat.finite 30, PyFloat.nan]) := by
  decide

/-- C3 (amended): if the manifest names a field outside the six validated
fields plus the derived field, the assembled record is still produced (one
value per manifest entry) with NaN in the unknown column, and on a
successful validation the predictor is invoked with that record; no error is
raised at request time. -/
theorem reindex_fills_unknown_with_nan (p : ValidatedProperty) (fs : List String)
    (n : String) (h1 : n ∈ fs) (h2 : n ∉ assembledFieldNames) :
    (reindexRecord p fs).length = fs.length ∧
    PyFloat.nan ∈ reindexRecord p fs ∧
    (∀ r, validateSubmission r = .ok (.success p) →
      submitHandler fs r = .ok (.predicted (reindexRecord p fs))) := by
  simp only [assembledFieldNames, List.mem_cons, List.not_mem_nil, or_false, not_or] at h2
  obtain ⟨e1, e2, e3, e4, e5, e6, e7⟩ := h2
  have hlook : (recordAssoc p).lookup n = none := by
    have b1 : (n == "bedroom_count") = false := beq_eq_false_iff_ne.mpr e1
    have b2 : (n == "net_sqm") = false := beq_eq_false_iff_ne.mpr e2
    have b3 : (n == "center_distance") = false := beq_eq_false_iff_ne.mpr e3
    have b4 : (n == "metro_distance") = false := beq_eq_false_iff_ne.mpr e4
    have b5 : (n == "floor") = false := beq_eq_false_iff_ne.mpr e5
    have b6 : (n == "age") = false := beq_eq_false_iff_ne.mpr e6
    have b7 : (n == "sqm_per_bedroom") = false := beq_eq_false_iff_ne.mpr e7
    simp [recordAssoc, List.lookup, b1, b2, b3, b4, b5, b6, b7]
  refine ⟨by simp [reindexRecord], ?_, ?_⟩
  · have hval : ((recordAssoc p).lookup n).getD PyFloat.nan = PyFloat.nan := by
      rw [hlook]
      rfl
    exact List.mem_map.mpr ⟨n, h1, hval⟩
  · intro r hr
    simp [submitHandler, hr]

/-- C3 (witness): the amended theorem evaluated at a concrete record and the
one-field manifest ["mystery_feature"]. -/
theorem reindex_fills_unknown_with_nan_witness :
    (reindexRecord ⟨3, .finite 90, .finite 1200, .finite 250, 5, 10⟩
      ["mystery_feature"]).length = 1 ∧
    PyFloat.nan ∈ reindexRecord ⟨3, .finite 90, .finite 1200, .finite 250, 5, 10⟩
      ["mystery_feature"] := by
  have h := reindex_fills_unknown_with_nan ⟨3, .finite 90, .finite 1200, .finite 250, 5, 10⟩
    ["mystery_feature"] "mystery_feature" (by decide) (by decide)
  exact ⟨h.1, h.2.1⟩

/-- C4: when the handler returns an error list, that list is exactly the
concatenation of the per-field messages in field order, so every offending
field contributes its message (all fields are checked independently, with no
short-circuit on the first failure). -/
theorem errors_accumulate_all_fields (r : RawInput) (pf pg : Option Int × Option String)
    (es : List String) (hf : floorParse r = .ok pf) (hg : ageParse r = .ok pg)
    (h : validateSubmission r = .ok (.failure es)) :
    es = collectErrors r pf pg ∧
    (r.bedroom_count = none → "Bedroom Count cannot be empty." ∈ es) ∧
    (∀ msg, (areaParse r).2 = some msg → msg ∈ es) ∧
    (∀ msg, pf.2 = some msg → msg ∈ es) ∧
    (∀ msg, (centerParse r).2 = some msg → msg ∈ es) ∧
    (∀ msg, (metroParse r).2 = some msg → msg ∈ es) ∧
    (∀ msg, pg.2 = some msg → msg ∈ es) := by
  rw [validateSubmission_eq r pf pg hf hg] at h
  have hes := finish_failure r pf pg es h
  subst hes
  refine ⟨rfl, ?_, ?_, ?_, ?_, ?_, ?_⟩
  · intro hb
    simp [collectErrors, bedErr, hb]
  · intro msg hm
    simp [collectErrors, hm]
  · intro msg hm
    simp [collectErrors, hm]
  · intro msg hm
    simp [collectErrors, hm]
  · intro msg hm
    simp [collectErrors, hm]
  · intro msg hm
    simp [collectErrors, hm]

/-- C4 (witness): the submission with three invalid fields (bedroom
unselected, area empty, floor non-numeric) returns all three messages. -/
theorem errors_accumulate_all_fields_witness :
    validateSubmission multiBadInput = .ok (.failure
      ["Bedroom Count cannot be empty.", "Net square meters cannot be empty.",
       "Floor Level must be a whole number."]) ∧
    "Net square meters cannot be empty." ∈
      ["Bedroom Count cannot be empty.", "Net square meters cannot be empty.",
       "Floor Level must be a whole number."] ∧
    "Floor Level must be a whole number." ∈
      ["Bedroom Count cannot be empty.", "Net square meters cannot be empty.",
       "Floor Level must be a whole number."] := by
  refine ⟨by decide, ?_, ?_⟩
  · exact (errors_accumulate_all_fields multiBadInput
      (none, some "Floor Level must be a whole number.") (some 10, none) _
      (by decide) (by decide) (by decide)).2.2.1 _ (by decide)
  · exact (errors_accumulate_all_fields multiBadInput
      (none, some "Floor Level must be a whole number.") (some 10, none) _
      (by decide) (by decide) (by decide)).2.2.2.1 _ (by decide)

/-- C5: every numeric range check is boundary-inclusive.  For any input text
that parses as a finite float: floor accepts exactly the truncated values in
1..50, age exactly 0..1000, net area exactly the values ≥ 1, and the two
distances exactly the values ≥ 0; the bedroom dropdown offers exactly the
integers 1..20. -/
theorem range_checks_boundary_inclusive :
    (∀ raw q, pyStrip raw ≠ "" → pyFloatOfString raw = some (.finite q) →
      (parse_int "Floor Level" raw 1 50 = .ok (some (ratTrunc q), none) ↔
        1 ≤ ratTrunc q ∧ ratTrunc q ≤ 50)) ∧
    (∀ raw q, pyStrip raw ≠ "" → pyFloatOfString raw = some (.finite q) →
      (parse_int "Property Age (years)" raw 0 1000 = .ok (some (ratTrunc q), none) ↔
        0 ≤ ratTrunc q ∧ ratTrunc q ≤ 1000)) ∧
    (∀ raw q, pyStrip raw ≠ "" → pyFloatOfString raw = some (.finite q) →
      (parse_float "Net square meters" raw (.finite 1) none =
        (some (.finite q), none) ↔ 1 ≤ q)) ∧
    (∀ raw q, pyStrip raw ≠ "" → pyFloatOfString raw = some (.finite q) →
      (parse_float "Distance to City Center (m)" raw (.finite 0) none =
        (some (.finite q), none) ↔ 0 ≤ q)) ∧
    (∀ raw q, pyStrip raw ≠ "" → pyFloatOfString raw = some (.finite q) →
      (parse_float "Distance to Metro (m)" raw (.finite 0) none =
        (some (.finite q), none) ↔ 0 ≤ q)) ∧
    (∀ b : Int, b ∈ bedroom_options ↔ 1 ≤ b ∧ b ≤ 20) := by
  refine ⟨?_, ?_, ?_, ?_, ?_, bedroom_options_iff⟩
  · intro raw q hne hq
    exact parse_int_range_iff _ raw 1 50 q hne hq
  · intro raw q hne hq
    exact parse_int_range_iff _ raw 0 1000 q hne hq
  · intro raw q hne hq
    exact parse_float_range_iff _ raw 1 q hne hq
  · intro raw q hne hq
    exact parse_float_range_iff _ raw 0 q hne hq
  · intro raw q hne hq
    exact parse_float_range_iff _ raw 0 q hne hq

/-- C5 (witness): the minima are accepted, a value below a minimum is
rejected, and the dropdown endpoints behave as stated. -/
theorem range_checks_boundary_inclusive_witness :
    parse_int "Floor Level" "1" 1 50 = .ok (some 1, none) ∧
    parse_int "Property Age (years)" "1000" 0 1000 = .ok (some 1000, none) ∧
    parse_float "Net square meters" "1.0" (.finite 1) none = (some (.finite 1), none) ∧
    parse_float "Net square meters" "0.9" (.finite 1) none ≠
      (some (.finite (mkRat 9 10)), none) ∧
    (1 : Int) ∈ bedroom_options ∧ (0 : Int) ∉ bedroom_options := by
  refine ⟨?_, ?_, ?_, ?_, ?_, ?_⟩
  · have h := (range_checks_boundary_inclusive.1 "1" 1 (by decide) (by decide)).mpr (by decide)
    have h2 : ratTrunc (1 : ℚ) = 1 := by decide
    rw [h2] at h
    exact h
  · have h := (range_checks_boundary_inclusive.2.1 "1000" 1000 (by decide) (by decide)).mpr
      (by decide)
    have h2 : ratTrunc (1000 : ℚ) = 1000 := by decide
    rw [h2] at h
    exact h
  · exact (range_checks_boundary_inclusive.2.2.1 "1.0" 1 (by decide) (by decide)).mpr (by decide)
  · intro hcl
    have h := (range_checks_boundary_inclusive.2.2.1 "0.9" (mkRat 9 10) (by decide)
      (by decide)).mp hcl
    revert h
    decide
  · exact (range_checks_boundary_inclusive.2.2.2.2.2 1).mpr (by decide)
  · intro hmem
    have h := (range_checks_boundary_inclusive.2.2.2.2.2 0).mp hmem
    omega

/-- C6: an empty or whitespace-only text field yields exactly the
"<Label> cannot be empty." message (the parse branches are never reached, so
no parse-error or range-error message can be emitted for that field), and an
unselected bedroom dropdown puts "Bedroom Count cannot be empty." into the
displayed error list. -/
theorem empty_input_exact_message :
    (∀ label raw min_v max_v, pyStrip raw = "" →
      parse_int label raw min_v max_v = .ok (none, some (label ++ " cannot be empty."))) ∧
    (∀ label raw min_v max_v, pyStrip raw = "" →
      parse_float label raw min_v max_v = (none, some (label ++ " cannot be empty."))) ∧
    (∀ r es, r.bedroom_count = none → validateSubmission r = .ok (.failure es) →
      "Bedroom Count cannot be empty." ∈ es) := by
  refine ⟨?_, ?_, ?_⟩
  · intro label raw mn mx h
    simp [parse_int, h]
  · intro label raw mn mx h
    simp [parse_float, h]
  · intro r es hb h
    unfold validateSubmission at h
    cases hfp : floorParse r <;> rw [hfp] at h
    · simp at h
    cases hgp : ageParse r <;> rw [hgp] at h
    · simp at h
    have hes := finish_failure r _ _ es h
    subst hes
    simp [collectErrors, bedErr, hb]

/-- C6 (witness): whitespace-only floor text, empty area text, and an
unselected dropdown each produce exactly the empty-field message. -/
theorem empty_input_exact_message_witness :
    parse_int "Floor Level" "   " 1 50 = .ok (none, some "Floor Level cannot be empty.") ∧
    parse_float "Net square meters" "" (.finite 1) none =
      (none, some "Net square meters cannot be empty.") ∧
    "Bedroom Count cannot be empty." ∈ ["Bedroom Count cannot be empty."] := by
  refine ⟨?_, ?_, ?_⟩
  · exact empty_input_exact_message.1 "Floor Level" "   " 1 50 (by decide)
  · exact empty_input_exact_message.2.1 "Net square meters" "" (.finite 1) none (by decide)
  · exact empty_input_exact_message.2.2 ⟨none, "90", "5", "1200", "250", "10"⟩
      ["Bedroom Count cannot be empty."] rfl (by decide)

/-- C7: for every successfully validated submission (the dropdown only
offers `bedroom_options`), the stored bedroom count is at least 1 and the
derived feature is exactly `net_sqm / bedroom_count` as an exact rational
division — in particular the division-by-zero branch of the float division
is never taken. -/
theorem derived_feature_exact_division (r : RawInput) (p : ValidatedProperty)
    (hopts : ∀ b, r.bedroom_count = some b → b ∈ bedroom_options)
    (h : validateSubmission r = .ok (.success p)) :
    1 ≤ p.bedroom_count ∧
    ∀ a : ℚ, p.net_sqm = .finite a →
      sqm_per_bedroom p = .finite (a / (p.bedroom_count : ℚ)) := by
  have hb : r.bedroom_count = some p.bedroom_count := by
    unfold validateSubmission at h
    cases hfp : floorParse r <;> rw [hfp] at h
    · simp at h
    cases hgp : ageParse r <;> rw [hgp] at h
    · simp at h
    exact finish_success_bedroom r _ _ p h
  have hmem := hopts _ hb
  have hrange := (bedroom_options_iff _).mp hmem
  refine ⟨hrange.1, ?_⟩
  intro a ha
  have hbq : ((p.bedroom_count : Int) : ℚ) ≠ 0 := by
    have h1 : (0 : Int) < p.bedroom_count := by omega
    exact_mod_cast ne_of_gt h1
  simp [sqm_per_bedroom, ha, pyDiv, hbq, ratDiv_eq]

/-- C7 (witness): net area 90 with 3 bedrooms gives exactly 30. -/
theorem derived_feature_exact_division_witness :
    1 ≤ (3 : Int) ∧
    sqm_per_bedroom ⟨3, .finite 90, .finite 1200, .finite 250, 5, 10⟩ = PyFloat.finite 30 := by
  have h := derived_feature_exact_division demoInput
    ⟨3, .finite 90, .finite 1200, .finite 250, 5, 10⟩
    (by
      intro b hb
      simp [demoInput] at hb
      subst hb
      decide)
    (by decide)
  refine ⟨h.1, ?_⟩
  have h2 := h.2 90 rfl
  rw [h2]
  norm_num

/-- C8 (counterexample): the model artifact is not loaded exactly once per
process: a session of two interactions performs two loads, because the
top-level `joblib.load` runs on every script rerun. -/
theorem model_reloaded_per_interaction :
    sessionRun [] [none, none] = .ok [AppEvent.modelLoad, AppEvent.modelLoad] ∧
    countLoads [AppEvent.modelLoad, AppEvent.modelLoad] = 2 :=
  ⟨by decide, by decide⟩

lemma scriptRun_one_load (features : List String) (s : Option RawInput)
    (evs : List AppEvent) (h : scriptRun features s = .ok evs) : countLoads evs = 1 := by
  cases s with
  | none =>
    simp [scriptRun] at h
    subst h
    rfl
  | some r =>
    simp only [scriptRun] at h
    cases hh : submitHandler features r <;> rw [hh] at h
    · simp at h
    rename_i res
    cases res with
    | errorsShown es =>
      simp at h
      subst h
      rfl
    | predicted record =>
      simp at h
      subst h
      rfl

/-- C8 (amended): the load happens once per interaction, not once per
process: every session of n interactions that completes normally performs
exactly n model loads. -/
theorem load_count_equals_interactions (features : List String)
    (subs : List (Option RawInput)) (evs : List AppEvent)
    (h : sessionRun features subs = .ok evs) : countLoads evs = subs.length := by
  induction subs generalizing evs with
  | nil =>
    simp [sessionRun] at h
    subst h
    rfl
  | cons s rest ih =>
    unfold sessionRun at h
    cases h1 : scriptRun features s <;> rw [h1] at h
    · simp at h
    rename_i evs1
    cases h2 : sessionRun features rest <;> rw [h2] at h
    · simp at h
    rename_i evs2
    simp at h
    subst h
    have e1 := scriptRun_one_load features s evs1 h1
    have e2 := ih evs2 h2
    simp [countLoads, List.countP_append] at e1 e2 ⊢
    omega

/-- C8 (witness): a single interaction performs a single load. -/
theorem load_count_equals_interactions_witness :
    countLoads [AppEvent.modelLoad] = ([(none : Option RawInput)]).length :=
  load_count_equals_interactions [] [none] [AppEvent.modelLoad] (by decide)

/-- C9: `parse_int` is not total: on the input "inf" the conversion
`int(float(raw))` raises an uncaught OverflowError (only ValueError is
caught), so neither a value nor an error message is returned. -/
theorem parse_int_raises_overflow_on_inf :
    parse_int "Floor Level" "inf" 1 50 = .error .overflowError ∧
    parse_int "Property Age (years)" "-inf" 0 1000 = .error .overflowError :=
  ⟨by decide, by decide⟩

/-- C10: `parse_float` on "nan" returns NaN with no error message — the
check `v < min_v` is false for NaN — so a ValidatedProperty whose net area
does not satisfy the ≥ 1.0 bound is produced by an otherwise valid
submission. -/
theorem parse_float_accepts_nan_without_error :
    parse_float "Net square meters" "nan" (.finite 1) none = (some PyFloat.nan, none) ∧
    pyLe (.finite 1) PyFloat.nan = false ∧
    validateSubmission ⟨some 3, "nan", "5", "1200", "250", "10"⟩ =
      .ok (.success ⟨3, PyFloat.nan, .finite 1200, .finite 250, 5, 10⟩) :=
  ⟨by decide, by decide, by decide⟩
